import Mathlib

/-!
Verification development for the warehouse-bot repository.

The Python sources (src/bot.py, src/services/sheets_handler.py,
src/services/permissions.py, src/services/drive_handler.py, src/config.py)
are shallowly embedded below: each Telegram conversation handler becomes a
pure Lean function from the session's user data, the local staging
directory contents ("disk"), and the classified inbound message to a step
result (new user data, new disk contents, next conversation state, replies
sent).  External services (Google Sheets appends, Google Drive uploads,
the wall clock) are passed in as explicit parameters, mirroring the
boundary that the code itself draws around them.
-/

/-- Conversation states, one constructor per member of the `range(21)`
tuple at the top of src/bot.py. -/
inductive BotState where
  | MAIN_MENU
  | SELECT_COUNTERPARTY
  | SELECT_PLACE
  | POSITION_PHOTOS
  | POSITION_QTY
  | OPERATION_SUMMARY
  | OPERATION_GENERAL_COMMENT
  | NEW_PRODUCT_PHOTOS
  | NEW_PRODUCT_COMMENT
  | NEW_PRODUCT_TYPE
  | DOC_TYPE
  | DOC_PHOTOS
  | DOC_COUNTERPARTY
  | DOC_COMMENT
  | VEHICLE_OP_TYPE
  | VEHICLE_ID
  | VEHICLE_PHOTOS
  | VEHICLE_COMMENT
  | INVOICE_COMMENT
  | HISTORY_FILTER
  | HISTORY_PERIOD
deriving DecidableEq, Repr

open BotState

/-- Bot limits from src/config.py (each is `int(os.getenv(..., default))`,
so the embedding keeps them as a parameter record; `defaultConfig` holds
the defaults written in config.py). -/
structure Config where
  maxPhotosPerPosition : Nat
  maxPhotosNewProduct : Nat
  maxPhotosDocument : Nat
  maxPhotosVehicle : Nat
  maxPositionsPerOperation : Nat
  maxQuantity : Nat
  maxCommentLength : Nat
deriving DecidableEq, Repr

/-- The defaults of src/config.py lines 110-117. -/
def defaultConfig : Config :=
  { maxPhotosPerPosition := 5
    maxPhotosNewProduct := 5
    maxPhotosDocument := 5
    maxPhotosVehicle := 10
    maxPositionsPerOperation := 30
    maxQuantity := 99999
    maxCommentLength := 1000 }

/-- One line item of a movement draft: the dict created in
`start_position` (src/bot.py line 382) with keys `number`, `photos`,
`temp_photos`, and later `quantity` (set in `handle_quantity`). -/
structure Position where
  number : Nat
  photos : List String
  temp_photos : List String
  quantity : Option Nat
deriving DecidableEq, Repr

/-- The per-session draft: `context.user_data` of python-telegram-bot.
Python uses one open dict; each key that any handler reads or writes is a
field here, `Option` distinguishing a missing key (KeyError on plain
indexing) from a present value. -/
structure UserData where
  mode : Option String := none
  employee : Option String := none
  opType : Option String := none
  opEmoji : Option String := none
  counterparty : Option String := none
  positions : Option (List Position) := none
  current_position : Option Position := none
  temp_photos : Option (List String) := none
  comment : Option String := none
  general_comment : Option String := none
  vehicle_op_type : Option String := none
  vehicle_id : Option String := none
  doc_type : Option String := none
  product_type : Option String := none
  file_path : Option String := none
  filename : Option String := none
  history_filter : Option String := none
deriving DecidableEq, Repr

/-- `context.user_data.clear()`: the empty session dict. -/
def emptyUserData : UserData := {}

/-- Modelled from the spec: the localization string table
(utils/localization.py) is imported by src/bot.py but is not among the
source files; its `BTN`/`MSG` entries are localized display strings.  The
handlers only ever compare inputs against these constants for equality,
so they are represented by distinct placeholder strings. -/
def btnCancel : String := "BTN:cancel"

/-- Modelled from the spec: see `btnCancel`. -/
def btnPhotoDone : String := "BTN:photo_done"

/-- Modelled from the spec: see `btnCancel`. -/
def btnAddComment : String := "BTN:add_comment"

/-- Modelled from the spec: see `btnCancel`. -/
def btnNoComment : String := "BTN:no_comment"

/-- Modelled from the spec: see `btnCancel`. -/
def btnSkip : String := "BTN:skip"

/-- Modelled from the spec: see `btnCancel`. -/
def btnSave : String := "BTN:save"

/-- Modelled from the spec: see `btnCancel`. -/
def btnNextPosition : String := "BTN:next_position"

/-- Modelled from the spec: see `btnCancel`. -/
def btnFinish : String := "BTN:finish"

/-- Modelled from the spec: see `btnCancel`. -/
def btnQtyCustom : String := "BTN:qty_custom"

/-- Modelled from the spec: see `btnCancel`. -/
def btnVehicleAuto : String := "BTN:vehicle_auto"

/-- Modelled from the spec: see `btnCancel`. -/
def btnVehicleCustom : String := "BTN:vehicle_custom"

/-- Modelled from the spec: see `btnCancel`. -/
def btnCounterpartyOther : String := "BTN:counterparty_other"

/-- Modelled from the spec: reply texts, abstracted by their localization
key (or a tag for the literals written inline in src/bot.py); the claims
depend only on which reply was sent, not on its wording. -/
def msgOperationCancelled : String := "MSG:operation_cancelled"

/-- Modelled from the spec: see `msgOperationCancelled`. -/
def msgSessionExpired : String := "MSG:session_expired_inline"

/-- Modelled from the spec: see `msgOperationCancelled`. -/
def msgEnterQuantity : String := "MSG:enter_quantity"

/-- Modelled from the spec: see `msgOperationCancelled`. -/
def msgEnterNumber : String := "MSG:enter_number_inline"

/-- Modelled from the spec: see `msgOperationCancelled`. -/
def msgRangeError : String := "MSG:range_error_inline"

/-- Modelled from the spec: see `msgOperationCancelled`. -/
def msgPositionSummary : String := "MSG:position_summary"

/-- Modelled from the spec: see `msgOperationCancelled`. -/
def msgOperationSummary : String := "MSG:operation_summary_ask_comment"

/-- Modelled from the spec: see `msgOperationCancelled`. -/
def msgSelectQuantity : String := "MSG:select_quantity"

/-- Modelled from the spec: see `msgOperationCancelled`. -/
def msgPhotoMax : String := "MSG:photo_max"

/-- Modelled from the spec: see `msgOperationCancelled`. -/
def msgPhotoCount : String := "MSG:photo_count"

/-- Modelled from the spec: see `msgOperationCancelled`. -/
def msgSendPhoto : String := "MSG:send_photo"

/-- Modelled from the spec: see `msgOperationCancelled`. -/
def msgSendPhotoVehicle : String := "MSG:send_photo_vehicle"

/-- Modelled from the spec: see `msgOperationCancelled`. -/
def msgNeedPhoto : String := "MSG:need_photo_inline"

/-- Modelled from the spec: see `msgOperationCancelled`. -/
def msgAskFinalComment : String := "MSG:ask_final_comment"

/-- Modelled from the spec: see `msgOperationCancelled`. -/
def msgEnterComment : String := "MSG:enter_comment"

/-- Modelled from the spec: see `msgOperationCancelled`. -/
def msgSaving : String := "MSG:saving_inline"

/-- Modelled from the spec: see `msgOperationCancelled`. -/
def msgErrorGeneric : String := "MSG:error_generic"

/-- Modelled from the spec: see `msgOperationCancelled`. -/
def msgErrorGoogle : String := "MSG:error_google"

/-- Modelled from the spec: see `msgOperationCancelled`. -/
def msgOperationSavedOk : String := "MSG:operation_saved_success_inline"

/-- Modelled from the spec: see `msgOperationCancelled`. -/
def msgSelectDescription : String := "MSG:new_product_description_inline"

/-- Modelled from the spec: see `msgOperationCancelled`. -/
def msgSelectCounterparty : String := "MSG:select_counterparty"

/-- Modelled from the spec: see `msgOperationCancelled`. -/
def msgInvoicePrompt : String := "MSG:invoice_ask_comment_inline"

/-- Embedding of Python string slicing `s[:n]`: Python slices by code
point, which is `List.take` on the character list. -/
def strTake (s : String) (n : Nat) : String := ⟨s.data.take n⟩

/-- Embedding of Python `str.strip()`: drop whitespace from both ends
(by code point). -/
def strTrim (s : String) : String :=
  ⟨((s.data.dropWhile Char.isWhitespace).reverse.dropWhile
      Char.isWhitespace).reverse⟩

/-- Embedding of `int(clean)` for a string of ASCII digits. -/
def natFromDigits (cs : List Char) : Nat :=
  cs.foldl (fun n c => n * 10 + (c.toNat - 48)) 0

/-- The result of one conversation turn: new session dict, new contents
of the local staging directory (list of file paths), the state returned
by the handler (`none` models an uncaught exception escaping the
handler), and the replies sent. -/
structure StepOut where
  ud : UserData
  disk : List String
  next : Option BotState
  replies : List String
deriving DecidableEq, Repr

/-- `_cleanup_temp_photos` (src/bot.py lines 59-67): collect the
top-level `temp_photos` list (default `[]`), the current position's
staged photos, and every saved position's staged photos. -/
def cleanupTempPhotos (ud : UserData) : List String :=
  (ud.temp_photos.getD []) ++
    (match ud.current_position with
      | some cur => cur.temp_photos
      | none => []) ++
    ((ud.positions.getD []).map (fun p => p.temp_photos)).flatten

/-- `cancel` (src/bot.py lines 111-116): unlink every collected staged
photo, clear the session, reply, return to the main menu. -/
def cancelStep (ud : UserData) (disk : List String) : StepOut :=
  { ud := emptyUserData
    disk := disk.removeAll (cleanupTempPhotos ud)
    next := some MAIN_MENU
    replies := [msgOperationCancelled] }

/-- `handle_quantity` (src/bot.py lines 415-449).  The final branch
mirrors `show_operation_summary`, which reads `op_type`, `counterparty`
and `employee` from the dict and so raises when any is missing. -/
def handleQuantity (cfg : Config) (ud : UserData) (disk : List String)
    (input : String) : StepOut :=
  let text := strTrim input
  if text = btnCancel then cancelStep ud disk
  else
    match ud.positions, ud.current_position with
    | some ps, some cur =>
      if text = btnQtyCustom then
        { ud := ud, disk := disk, next := some POSITION_QTY,
          replies := [msgEnterQuantity] }
      else
        let clean := text.data.filter Char.isDigit
        if clean.isEmpty then
          { ud := ud, disk := disk, next := some POSITION_QTY,
            replies := [msgEnterNumber] }
        else
          let qty := natFromDigits clean
          if qty = 0 ∨ qty > cfg.maxQuantity then
            { ud := ud, disk := disk, next := some POSITION_QTY,
              replies := [msgRangeError] }
          else
            let cur' := { cur with quantity := some qty }
            let ps' := ps ++ [cur']
            let ud' := { ud with current_position := some cur',
                                 positions := some ps' }
            if ps'.length ≥ cfg.maxPositionsPerOperation then
              match ud.opType, ud.counterparty, ud.employee with
              | some _, some _, some _ =>
                { ud := ud', disk := disk,
                  next := some OPERATION_GENERAL_COMMENT,
                  replies := [msgPositionSummary, msgOperationSummary] }
              | _, _, _ =>
                { ud := ud', disk := disk, next := none, replies := [msgPositionSummary] }
            else
              { ud := ud', disk := disk, next := some OPERATION_SUMMARY,
                replies := [msgPositionSummary] }
    | _, _ =>
      { ud := emptyUserData, disk := disk, next := some MAIN_MENU,
        replies := [msgSessionExpired] }

example :
    (handleQuantity defaultConfig
      { positions := some [], current_position := some ⟨1, [], [], none⟩ }
      [] "250").ud.positions =
      some [⟨1, [], [], some 250⟩] := by decide

example :
    (handleQuantity defaultConfig
      { positions := some [], current_position := some ⟨1, [], [], none⟩ }
      [] "abc").next = some POSITION_QTY := by decide

/-- Digit extraction of `handle_quantity`: strip the text, keep digit
characters only. -/
def cleanDigits (s : String) : List Char :=
  (strTrim s).data.filter Char.isDigit

/-- C4: quantity validation in the quantity state.  Away from the cancel
and custom-quantity buttons and with the draft present, the handler
strips non-digit characters from the stripped text; if nothing remains,
or the parsed value is zero, or it exceeds the configured maximum, the
draft is untouched and the state stays at the quantity prompt; otherwise
the parsed integer is recorded as the position quantity and the position
is appended to the draft. -/
theorem C4_quantity_validation (cfg : Config) (ud : UserData)
    (disk : List String) (input : String) (ps : List Position)
    (cur : Position)
    (hps : ud.positions = some ps) (hcur : ud.current_position = some cur)
    (hc : strTrim input ≠ btnCancel) (hq : strTrim input ≠ btnQtyCustom) :
    (cleanDigits input = [] →
      handleQuantity cfg ud disk input =
        { ud := ud, disk := disk, next := some POSITION_QTY,
          replies := [msgEnterNumber] }) ∧
    ((natFromDigits (cleanDigits input) = 0 ∨
        natFromDigits (cleanDigits input) > cfg.maxQuantity) →
      (handleQuantity cfg ud disk input).ud = ud ∧
      (handleQuantity cfg ud disk input).next = some POSITION_QTY) ∧
    (cleanDigits input ≠ [] →
      1 ≤ natFromDigits (cleanDigits input) →
      natFromDigits (cleanDigits input) ≤ cfg.maxQuantity →
      ps.length + 1 < cfg.maxPositionsPerOperation →
      (handleQuantity cfg ud disk input).ud.positions =
        some (ps ++
          [{ cur with quantity := some (natFromDigits (cleanDigits input)) }]) ∧
      (handleQuantity cfg ud disk input).next = some OPERATION_SUMMARY) := by
  simp only [handleQuantity, if_neg hc, hps, hcur, if_neg hq, cleanDigits]
  by_cases hcl : (strTrim input).data.filter Char.isDigit = []
  · rw [hcl]
    refine ⟨fun _ => by simp, ?_, fun h => absurd rfl h⟩
    intro _
    simp
  · simp only [List.isEmpty_iff, hcl, if_false]
    refine ⟨fun h => h.elim, ?_, ?_⟩
    · intro hrange
      rw [if_pos hrange]
      exact ⟨rfl, rfl⟩
    · intro _ h1 h2 hcap
      have hrange : ¬(natFromDigits ((strTrim input).data.filter
          Char.isDigit) = 0 ∨
          natFromDigits ((strTrim input).data.filter Char.isDigit) >
            cfg.maxQuantity) := by
        push_neg
        exact ⟨Nat.one_le_iff_ne_zero.mp h1, h2⟩
      rw [if_neg hrange]
      have hlen : ¬((ps ++
          [{ cur with quantity := some (natFromDigits ((strTrim input).data.filter Char.isDigit)) }]).length ≥
            cfg.maxPositionsPerOperation) := by
        simp only [List.length_append, List.length_singleton]
        omega
      rw [if_neg hlen]
      exact ⟨rfl, rfl⟩

/-- Witness for C4: "250" is accepted as 250 under the default
configuration (max quantity 99999), and "abc" is rejected without
advancing. -/
theorem C4_quantity_validation_witness :
    (handleQuantity defaultConfig
      { positions := some [], current_position := some ⟨1, [], [], none⟩ }
      [] "250").ud.positions = some [⟨1, [], [], some 250⟩] ∧
    (handleQuantity defaultConfig
      { positions := some [], current_position := some ⟨1, [], [], none⟩ }
      [] "abc").next = some POSITION_QTY := by
  constructor
  · have h := C4_quantity_validation defaultConfig
      { positions := some [], current_position := some ⟨1, [], [], none⟩ }
      [] "250" [] ⟨1, [], [], none⟩ rfl rfl (by decide) (by decide)
    have h2 := (h.2.2 (by decide) (by decide) (by decide) (by decide)).1
    rw [h2]
    decide
  · have h := C4_quantity_validation defaultConfig
      { positions := some [], current_position := some ⟨1, [], [], none⟩ }
      [] "abc" [] ⟨1, [], [], none⟩ rfl rfl (by decide) (by decide)
    have h1 := h.1 (by decide)
    rw [h1]

/-- One inbound message in a photo-collecting state: either a text
message or a photo attachment.  For a photo, the handler's
`update.message.text or ""` evaluates to `""`; `path` is the fresh
timestamp-named file the handler downloads into the staging
directory. -/
inductive MsgInput where
  | text (s : String)
  | photo (path : String)
deriving DecidableEq, Repr

/-- The `text or ""` access at the top of every photo handler. -/
def MsgInput.asText : MsgInput → String
  | .text s => s
  | .photo _ => ""

/-- `handle_position_photo` (src/bot.py lines 389-409).  Photos are
appended to `current_position['temp_photos']` after the download; a
missing `current_position` key makes the plain dict index raise, which
the embedding records as `next = none`. -/
def handlePositionPhoto (cfg : Config) (ud : UserData) (disk : List String)
    (inp : MsgInput) : StepOut :=
  let text := inp.asText
  if text = btnCancel then cancelStep ud disk
  else if text = btnPhotoDone then
    { ud := ud, disk := disk, next := some POSITION_QTY,
      replies := [msgSelectQuantity] }
  else
    match inp with
    | .photo fp =>
      let disk1 := disk ++ [fp]
      match ud.current_position with
      | none => { ud := ud, disk := disk1, next := none, replies := [] }
      | some cur =>
        let cur' := { cur with temp_photos := cur.temp_photos ++ [fp] }
        let ud' := { ud with current_position := some cur' }
        if cur'.temp_photos.length ≥ cfg.maxPhotosPerPosition then
          { ud := ud', disk := disk1, next := some POSITION_QTY,
            replies := [msgPhotoMax, msgSelectQuantity] }
        else
          { ud := ud', disk := disk1, next := some POSITION_PHOTOS,
            replies := [msgPhotoCount] }
    | .text _ =>
      { ud := ud, disk := disk, next := some POSITION_PHOTOS,
        replies := [msgSendPhoto] }

/-- `handle_vehicle_photo` (src/bot.py lines 207-236).  Both the "done"
branch and the photo branch index `user_data['temp_photos']` directly,
so a missing key raises (`next = none`). -/
def handleVehiclePhoto (cfg : Config) (ud : UserData) (disk : List String)
    (inp : MsgInput) : StepOut :=
  let text := inp.asText
  if text = btnCancel then cancelStep ud disk
  else if text = btnPhotoDone then
    match ud.temp_photos with
    | none => { ud := ud, disk := disk, next := none, replies := [] }
    | some tps =>
      if tps.isEmpty then
        { ud := ud, disk := disk, next := some VEHICLE_PHOTOS,
          replies := [msgNeedPhoto] }
      else
        { ud := ud, disk := disk, next := some VEHICLE_COMMENT,
          replies := [msgAskFinalComment] }
  else
    match inp with
    | .photo fp =>
      let disk1 := disk ++ [fp]
      match ud.temp_photos with
      | none => { ud := ud, disk := disk1, next := none, replies := [] }
      | some tps =>
        let tps' := tps ++ [fp]
        let ud' := { ud with temp_photos := some tps' }
        if tps'.length ≥ cfg.maxPhotosVehicle then
          { ud := ud', disk := disk1, next := some VEHICLE_COMMENT,
            replies := [msgAskFinalComment] }
        else
          { ud := ud', disk := disk1, next := some VEHICLE_PHOTOS,
            replies := [msgPhotoCount] }
    | .text _ =>
      { ud := ud, disk := disk, next := some VEHICLE_PHOTOS,
        replies := [msgSendPhotoVehicle] }

/-- `handle_new_product_photo` (src/bot.py lines 538-566). -/
def handleNewProductPhoto (cfg : Config) (ud : UserData)
    (disk : List String) (inp : MsgInput) : StepOut :=
  let text := inp.asText
  if text = btnCancel then cancelStep ud disk
  else if text = btnPhotoDone then
    match ud.temp_photos with
    | none => { ud := ud, disk := disk, next := none, replies := [] }
    | some tps =>
      if tps.isEmpty then
        { ud := ud, disk := disk, next := some NEW_PRODUCT_PHOTOS,
          replies := [msgNeedPhoto] }
      else
        { ud := ud, disk := disk, next := some NEW_PRODUCT_COMMENT,
          replies := [msgSelectDescription] }
  else
    match inp with
    | .photo fp =>
      let disk1 := disk ++ [fp]
      match ud.temp_photos with
      | none => { ud := ud, disk := disk1, next := none, replies := [] }
      | some tps =>
        let tps' := tps ++ [fp]
        let ud' := { ud with temp_photos := some tps' }
        if tps'.length ≥ cfg.maxPhotosNewProduct then
          { ud := ud', disk := disk1, next := some NEW_PRODUCT_COMMENT,
            replies := [msgSelectDescription] }
        else
          { ud := ud', disk := disk1, next := some NEW_PRODUCT_PHOTOS,
            replies := [msgPhotoCount] }
    | .text _ =>
      { ud := ud, disk := disk, next := some NEW_PRODUCT_PHOTOS,
        replies := [msgSendPhoto] }

/-- `handle_doc_photo` (src/bot.py lines 631-662). -/
def handleDocPhoto (cfg : Config) (ud : UserData) (disk : List String)
    (inp : MsgInput) : StepOut :=
  let text := inp.asText
  if text = btnCancel then cancelStep ud disk
  else if text = btnPhotoDone then
    match ud.temp_photos with
    | none => { ud := ud, disk := disk, next := none, replies := [] }
    | some tps =>
      if tps.isEmpty then
        { ud := ud, disk := disk, next := some DOC_PHOTOS,
          replies := [msgNeedPhoto] }
      else
        { ud := ud, disk := disk, next := some DOC_COUNTERPARTY,
          replies := [msgSelectCounterparty] }
  else
    match inp with
    | .photo fp =>
      let disk1 := disk ++ [fp]
      match ud.temp_photos with
      | none => { ud := ud, disk := disk1, next := none, replies := [] }
      | some tps =>
        let tps' := tps ++ [fp]
        let ud' := { ud with temp_photos := some tps' }
        if tps'.length ≥ cfg.maxPhotosDocument then
          { ud := ud', disk := disk1, next := some DOC_COUNTERPARTY,
            replies := [msgSelectCounterparty] }
        else
          { ud := ud', disk := disk1, next := some DOC_PHOTOS,
            replies := [msgPhotoCount] }
    | .text _ =>
      { ud := ud, disk := disk, next := some DOC_PHOTOS,
        replies := [msgSendPhoto] }

/-- C3: bounded photo collection.  In each photo-collecting state
(position, vehicle, new product, document), an accepted upload appends
exactly one entry to the staged photo list; if that makes the list reach
the configured maximum the handler advances to the same state a "done"
input would produce (without requiring "done"), otherwise it stays; and
the list never exceeds the maximum. -/
theorem C3_photo_collection_bound :
    (∀ (cfg : Config) (ud : UserData) (disk : List String) (fp : String)
        (cur : Position),
      ud.current_position = some cur →
      cur.temp_photos.length < cfg.maxPhotosPerPosition →
      (handlePositionPhoto cfg ud disk (.photo fp)).ud.current_position =
          some { cur with temp_photos := cur.temp_photos ++ [fp] } ∧
      (cur.temp_photos ++ [fp]).length ≤ cfg.maxPhotosPerPosition ∧
      (cur.temp_photos.length + 1 = cfg.maxPhotosPerPosition →
        (handlePositionPhoto cfg ud disk (.photo fp)).next =
          (handlePositionPhoto cfg
            (handlePositionPhoto cfg ud disk (.photo fp)).ud
            (handlePositionPhoto cfg ud disk (.photo fp)).disk
            (.text btnPhotoDone)).next ∧
        (handlePositionPhoto cfg ud disk (.photo fp)).next =
          some POSITION_QTY) ∧
      (cur.temp_photos.length + 1 < cfg.maxPhotosPerPosition →
        (handlePositionPhoto cfg ud disk (.photo fp)).next =
          some POSITION_PHOTOS)) ∧
    (∀ (cfg : Config) (ud : UserData) (disk : List String) (fp : String)
        (tps : List String),
      ud.temp_photos = some tps →
      tps.length < cfg.maxPhotosVehicle →
      (handleVehiclePhoto cfg ud disk (.photo fp)).ud.temp_photos =
          some (tps ++ [fp]) ∧
      (tps ++ [fp]).length ≤ cfg.maxPhotosVehicle ∧
      (tps.length + 1 = cfg.maxPhotosVehicle →
        (handleVehiclePhoto cfg ud disk (.photo fp)).next =
          (handleVehiclePhoto cfg
            (handleVehiclePhoto cfg ud disk (.photo fp)).ud
            (handleVehiclePhoto cfg ud disk (.photo fp)).disk
            (.text btnPhotoDone)).next ∧
        (handleVehiclePhoto cfg ud disk (.photo fp)).next =
          some VEHICLE_COMMENT) ∧
      (tps.length + 1 < cfg.maxPhotosVehicle →
        (handleVehiclePhoto cfg ud disk (.photo fp)).next =
          some VEHICLE_PHOTOS)) ∧
    (∀ (cfg : Config) (ud : UserData) (disk : List String) (fp : String)
        (tps : List String),
      ud.temp_photos = some tps →
      tps.length < cfg.maxPhotosNewProduct →
      (handleNewProductPhoto cfg ud disk (.photo fp)).ud.temp_photos =
          some (tps ++ [fp]) ∧
      (tps ++ [fp]).length ≤ cfg.maxPhotosNewProduct ∧
      (tps.length + 1 = cfg.maxPhotosNewProduct →
        (handleNewProductPhoto cfg ud disk (.photo fp)).next =
          (handleNewProductPhoto cfg
            (handleNewProductPhoto cfg ud disk (.photo fp)).ud
            (handleNewProductPhoto cfg ud disk (.photo fp)).disk
            (.text btnPhotoDone)).next ∧
        (handleNewProductPhoto cfg ud disk (.photo fp)).next =
          some NEW_PRODUCT_COMMENT) ∧
      (tps.length + 1 < cfg.maxPhotosNewProduct →
        (handleNewProductPhoto cfg ud disk (.photo fp)).next =
          some NEW_PRODUCT_PHOTOS)) ∧
    (∀ (cfg : Config) (ud : UserData) (disk : List String) (fp : String)
        (tps : List String),
      ud.temp_photos = some tps →
      tps.length < cfg.maxPhotosDocument →
      (handleDocPhoto cfg ud disk (.photo fp)).ud.temp_photos =
          some (tps ++ [fp]) ∧
      (tps ++ [fp]).length ≤ cfg.maxPhotosDocument ∧
      (tps.length + 1 = cfg.maxPhotosDocument →
        (handleDocPhoto cfg ud disk (.photo fp)).next =
          (handleDocPhoto cfg
            (handleDocPhoto cfg ud disk (.photo fp)).ud
            (handleDocPhoto cfg ud disk (.photo fp)).disk
            (.text btnPhotoDone)).next ∧
        (handleDocPhoto cfg ud disk (.photo fp)).next =
          some DOC_COUNTERPARTY) ∧
      (tps.length + 1 < cfg.maxPhotosDocument →
        (handleDocPhoto cfg ud disk (.photo fp)).next =
          some DOC_PHOTOS)) := by
  refine ⟨?_, ?_, ?_, ?_⟩
  · intro cfg ud disk fp cur hcur hlt
    simp only [handlePositionPhoto, MsgInput.asText, btnCancel,
      btnPhotoDone, hcur, List.length_append, List.length_singleton]
    by_cases hm : cur.temp_photos.length + 1 ≥ cfg.maxPhotosPerPosition
    · simp only [List.length_append, List.length_singleton, hm, if_true,
        if_pos hm]
      refine ⟨rfl, by omega, fun _ => ⟨rfl, rfl⟩, fun h => by omega⟩
    · simp only [List.length_append, List.length_singleton, if_neg hm]
      refine ⟨rfl, by omega, fun h => by omega, fun _ => rfl⟩
  · intro cfg ud disk fp tps htps hlt
    simp only [handleVehiclePhoto, MsgInput.asText, btnCancel,
      btnPhotoDone, htps, List.length_append, List.length_singleton]
    by_cases hm : tps.length + 1 ≥ cfg.maxPhotosVehicle
    · simp only [List.length_append, List.length_singleton, if_pos hm]
      refine ⟨rfl, by omega, fun _ => ⟨?_, rfl⟩, fun h => by omega⟩
      simp [handleVehiclePhoto, MsgInput.asText, btnCancel, btnPhotoDone]
    · simp only [List.length_append, List.length_singleton, if_neg hm]
      refine ⟨rfl, by omega, fun h => by omega, fun _ => rfl⟩
  · intro cfg ud disk fp tps htps hlt
    simp only [handleNewProductPhoto, MsgInput.asText, btnCancel,
      btnPhotoDone, htps, List.length_append, List.length_singleton]
    by_cases hm : tps.length + 1 ≥ cfg.maxPhotosNewProduct
    · simp only [List.length_append, List.length_singleton, if_pos hm]
      refine ⟨rfl, by omega, fun _ => ⟨?_, rfl⟩, fun h => by omega⟩
      simp [handleNewProductPhoto, MsgInput.asText, btnCancel, btnPhotoDone]
    · simp only [List.length_append, List.length_singleton, if_neg hm]
      refine ⟨rfl, by omega, fun h => by omega, fun _ => rfl⟩
  · intro cfg ud disk fp tps htps hlt
    simp only [handleDocPhoto, MsgInput.asText, btnCancel,
      btnPhotoDone, htps, List.length_append, List.length_singleton]
    by_cases hm : tps.length + 1 ≥ cfg.maxPhotosDocument
    · simp only [List.length_append, List.length_singleton, if_pos hm]
      refine ⟨rfl, by omega, fun _ => ⟨?_, rfl⟩, fun h => by omega⟩
      simp [handleDocPhoto, MsgInput.asText, btnCancel, btnPhotoDone]
    · simp only [List.length_append, List.length_singleton, if_neg hm]
      refine ⟨rfl, by omega, fun h => by omega, fun _ => rfl⟩

/-- Witness for C3: under the default configuration, a first photo in
each collecting state is appended and the state stays collecting. -/
theorem C3_photo_collection_bound_witness :
    (handlePositionPhoto defaultConfig
      { current_position := some ⟨1, [], [], none⟩ } [] (.photo "p.jpg")
      ).ud.current_position = some ⟨1, [], ["p.jpg"], none⟩ ∧
    (handleVehiclePhoto defaultConfig { temp_photos := some [] } []
      (.photo "v.jpg")).ud.temp_photos = some ["v.jpg"] ∧
    (handleNewProductPhoto defaultConfig { temp_photos := some [] } []
      (.photo "n.jpg")).ud.temp_photos = some ["n.jpg"] ∧
    (handleDocPhoto defaultConfig { temp_photos := some [] } []
      (.photo "d.jpg")).ud.temp_photos = some ["d.jpg"] := by
  refine ⟨?_, ?_, ?_, ?_⟩
  · have h := (C3_photo_collection_bound.1 defaultConfig
      { current_position := some ⟨1, [], [], none⟩ } [] "p.jpg"
      ⟨1, [], [], none⟩ rfl (by decide)).1
    rw [h]
    decide
  · have h := (C3_photo_collection_bound.2.1 defaultConfig
      { temp_photos := some [] } [] "v.jpg" [] rfl (by decide)).1
    rw [h]
    rfl
  · have h := (C3_photo_collection_bound.2.2.1 defaultConfig
      { temp_photos := some [] } [] "n.jpg" [] rfl (by decide)).1
    rw [h]
    rfl
  · have h := (C3_photo_collection_bound.2.2.2 defaultConfig
      { temp_photos := some [] } [] "d.jpg" [] rfl (by decide)).1
    rw [h]
    rfl

/-- C6 counterexample: the claim "every draft-dependent handler recovers
from a missing draft by returning to the main menu with an explanatory
message and never raises" is false: the vehicle-photo handler indexes
`user_data['temp_photos']` directly, so a "done" input with an empty
session raises a KeyError that escapes the handler (`next = none`): no
reply is sent and the machine is not returned to the main menu. -/
theorem C6_missing_draft_counterexample :
    (handleVehiclePhoto defaultConfig emptyUserData []
      (.text btnPhotoDone)).next = none ∧
    (handleVehiclePhoto defaultConfig emptyUserData []
      (.text btnPhotoDone)).replies = [] := by
  constructor
  · rfl
  · rfl

/-- C6 amended: only the quantity handler implements the session-loss
guard: whenever `positions` or `current_position` is missing from the
session, `handle_quantity` replies and returns to the main menu with the
session cleared, and never faults; the vehicle-photo handler, by
contrast, raises an unhandled key-missing fault on a "done" input when
its staged-photo list is absent. -/
theorem C6_missing_draft_guard (cfg : Config) (ud : UserData)
    (disk : List String) (input : String)
    (hmiss : ud.positions = none ∨ ud.current_position = none) :
    ((handleQuantity cfg ud disk input).next = some MAIN_MENU ∧
      (handleQuantity cfg ud disk input).ud = emptyUserData) ∧
    (handleVehiclePhoto defaultConfig emptyUserData []
      (.text btnPhotoDone)).next = none := by
  refine ⟨?_, rfl⟩
  unfold handleQuantity
  by_cases hc : strTrim input = btnCancel
  · rw [if_pos hc]
    exact ⟨rfl, rfl⟩
  · rw [if_neg hc]
    rcases hmiss with h | h
    · rw [h]
      cases ud.current_position <;> exact ⟨rfl, rfl⟩
    · rw [h]
      cases ud.positions <;> exact ⟨rfl, rfl⟩

/-- Witness for C6 amended: a session that lost its draft while in the
quantity state is sent back to the main menu with a cleared session. -/
theorem C6_missing_draft_guard_witness :
    (handleQuantity defaultConfig emptyUserData [] "5").next =
      some MAIN_MENU ∧
    (handleQuantity defaultConfig emptyUserData [] "5").ud =
      emptyUserData := by
  exact (C6_missing_draft_guard defaultConfig emptyUserData [] "5"
    (Or.inl rfl)).1

/-- Timestamps drawn from `datetime.now()` at save time, passed in
explicitly: the date (`%Y-%m-%d`), the time (`%H:%M:%S`), and the
`%Y%m%d-%H%M%S` token used inside the operation id. -/
structure NowStamp where
  date : String
  time : String
  stamp : String
deriving DecidableEq, Repr

/-- The external services touched during a save, passed in explicitly.
`uploadOp` is `drive_handler.upload_operation_photos` (staged paths and
position number to share links), `uploadList` the vehicle / document /
new-product photo upload, `uploadOne` `upload_invoice`.  `appendOk`
is the boolean result of the Sheets append; `throws` models the first
external call of the `try` block raising. -/
structure SaveEnv where
  uploadOp : List String → Nat → List String
  uploadList : List String → List String
  uploadOne : String → String
  appendOk : Bool
  throws : Bool

/-- One movement row as built literally in `save_operation`
(src/bot.py lines 497-514): fixed keys, five photo columns. -/
structure MovementRow where
  date : String
  time : String
  opType : String
  counterparty : String
  operationId : String
  posNumber : Nat
  quantity : String
  positionComment : String
  foto1 : String
  foto2 : String
  foto3 : String
  foto4 : String
  foto5 : String
  generalComment : String
  employee : String
  status : String
deriving DecidableEq, Repr

/-- Row construction for one position in `save_operation`: photo links
beyond the fifth are dropped (`photo_links[i] if len > i else ""`). -/
def mkMovementRow (now : NowStamp) (opType ctp opId : String)
    (pos : Position) (links : List String) (genC emp : String) :
    MovementRow :=
  { date := now.date
    time := now.time
    opType := opType
    counterparty := ctp
    operationId := opId
    posNumber := pos.number
    quantity := match pos.quantity with
      | some q => toString q
      | none => ""
    positionComment := ""
    foto1 := links.getD 0 ""
    foto2 := links.getD 1 ""
    foto3 := links.getD 2 ""
    foto4 := links.getD 3 ""
    foto5 := links.getD 4 ""
    generalComment := genC
    employee := emp
    status := "NEW" }

/-- The `for idx, pos in enumerate(data["positions"])` loop of
`save_operation`: upload a position's staged photos (only when there are
any), unlink them, build the row, and call
`append_movement(row, is_first_position=(idx == 0))`.  Returns the
append calls in order and the staged paths unlinked. -/
def saveLoop (env : SaveEnv) (now : NowStamp) (opId opType ctp genC
    emp : String) : Nat → List Position →
    List (MovementRow × Bool) × List String
  | _, [] => ([], [])
  | i, pos :: rest =>
    let links := if pos.temp_photos.isEmpty then []
      else env.uploadOp pos.temp_photos pos.number
    let row := mkMovementRow now opType ctp opId pos links genC emp
    let next := saveLoop env now opId opType ctp genC emp (i + 1) rest
    ((row, i == 0) :: next.1, pos.temp_photos ++ next.2)

/-- Output of `save_operation`: cleared session, staging directory after
the unlinks, next state, replies, the `append_movement` calls made, and
the rows the store actually recorded (empty when the append returns
failure — the sheet has no header row — mirroring
`SheetsHandler.append_movement`). -/
structure OpSaveOut where
  ud : UserData
  disk : List String
  next : Option BotState
  replies : List String
  calls : List (MovementRow × Bool)
  persisted : List (MovementRow × Bool)

/-- `save_operation` (src/bot.py lines 479-523).  The operation id is
`f"OP-{now}-{username}"`.  Any exception in the `try` block (modelled by
`env.throws`, or by a required key being absent from the dict) is caught
and answered with the generic error; the session is cleared on every
path.  Note the boolean returned by `append_movement` is ignored: the
success reply is sent even when every append failed. -/
def saveOperation (env : SaveEnv) (now : NowStamp) (ud : UserData)
    (disk : List String) : OpSaveOut :=
  if env.throws then
    { ud := emptyUserData, disk := disk, next := some MAIN_MENU,
      replies := [msgSaving, msgErrorGeneric], calls := [],
      persisted := [] }
  else
    match ud.employee, ud.positions, ud.opType, ud.opEmoji with
    | some emp, some ps, some opT, some _ =>
      let opId := "OP-" ++ now.stamp ++ "-" ++ emp
      let loopOut := saveLoop env now opId opT (ud.counterparty.getD "")
        (ud.general_comment.getD "") emp 0 ps
      { ud := emptyUserData
        disk := disk.removeAll loopOut.2
        next := some MAIN_MENU
        replies := [msgSaving, msgOperationSavedOk]
        calls := loopOut.1
        persisted := if env.appendOk then loopOut.1 else [] }
    | _, _, _, _ =>
      { ud := emptyUserData, disk := disk, next := some MAIN_MENU,
        replies := [msgSaving, msgErrorGeneric], calls := [],
        persisted := [] }

/-- `handle_general_comment` (src/bot.py lines 467-477): the save button
stores an empty general comment, any other free text is truncated to
`MAX_COMMENT_LENGTH`; both then run `save_operation`. -/
def handleGeneralComment (cfg : Config) (env : SaveEnv) (now : NowStamp)
    (ud : UserData) (disk : List String) (text : String) : OpSaveOut :=
  if text = btnCancel then
    let c := cancelStep ud disk
    { ud := c.ud, disk := c.disk, next := c.next, replies := c.replies,
      calls := [], persisted := [] }
  else if text = btnAddComment then
    { ud := ud, disk := disk, next := some OPERATION_GENERAL_COMMENT,
      replies := [msgEnterComment], calls := [], persisted := [] }
  else
    let c := if text = btnSave then "" else strTake text cfg.maxCommentLength
    saveOperation env now { ud with general_comment := some c } disk

/-- The `vehicle_data` dict passed to `sheets_handler.add_vehicle`
(src/bot.py lines 257-265). -/
structure VehicleData where
  date : String
  time : String
  op_type : String
  vehicle_id : String
  photos : List String
  comment : String
  employee : String
deriving DecidableEq, Repr

/-- The `doc_data` dict passed to `sheets_handler.add_document`
(src/bot.py lines 692-700). -/
structure DocData where
  date : String
  time : String
  doc_type : String
  counterparty : String
  photos : List String
  comment : String
  employee : String
deriving DecidableEq, Repr

/-- The `invoice_data` dict passed to `sheets_handler.add_invoice`
(src/bot.py lines 318-324). -/
structure InvoiceData where
  date : String
  filename : String
  file_link : String
  comment : String
  employee : String
deriving DecidableEq, Repr

/-- The `product_data` dict passed to `sheets_handler.add_new_product`
(src/bot.py lines 592-598). -/
structure ProductData where
  time : String
  employee : String
  photos : List String
  comment : String
  product_type : String
deriving DecidableEq, Repr

/-- Output of the single-record save handlers: step result plus the data
records handed to the record store (the call is made before its boolean
result is inspected, so `sent` is nonempty whenever the save path was
reached). -/
structure SaveStepOut (α : Type) where
  ud : UserData
  disk : List String
  next : Option BotState
  replies : List String
  sent : List α

/-- `handle_vehicle_comment` (src/bot.py lines 238-277): skip /
no-comment store an empty comment, other text is truncated; the `try`
block uploads the staged photos, unlinks them, builds `vehicle_data`,
and reports success, the Google error (append returned False) or the
generic error (exception), clearing the session on every path. -/
def handleVehicleComment (cfg : Config) (env : SaveEnv) (now : NowStamp)
    (ud : UserData) (disk : List String) (text : String) :
    SaveStepOut VehicleData :=
  if text = btnCancel then
    let c := cancelStep ud disk
    { ud := c.ud, disk := c.disk, next := c.next, replies := c.replies,
      sent := [] }
  else if text = btnAddComment then
    { ud := ud, disk := disk, next := some VEHICLE_COMMENT,
      replies := [msgEnterComment], sent := [] }
  else
    let c := if text = btnSkip ∨ text = btnNoComment then ""
      else strTake text cfg.maxCommentLength
    if env.throws then
      { ud := emptyUserData, disk := disk, next := some MAIN_MENU,
        replies := [msgSaving, msgErrorGeneric], sent := [] }
    else
      match ud.temp_photos, ud.vehicle_id, ud.vehicle_op_type,
          ud.employee with
      | some tps, some vid, some vop, some emp =>
        let links := env.uploadList tps
        let vd : VehicleData :=
          { date := now.date, time := now.time, op_type := vop,
            vehicle_id := vid, photos := links, comment := c,
            employee := emp }
        if env.appendOk then
          { ud := emptyUserData, disk := disk.removeAll tps,
            next := some MAIN_MENU,
            replies := [msgSaving, msgOperationSavedOk], sent := [vd] }
        else
          { ud := emptyUserData, disk := disk.removeAll tps,
            next := some MAIN_MENU,
            replies := [msgSaving, msgErrorGoogle], sent := [vd] }
      | _, _, _, _ =>
        { ud := emptyUserData, disk := disk, next := some MAIN_MENU,
          replies := [msgSaving, msgErrorGeneric], sent := [] }

/-- `handle_doc_comment` (src/bot.py lines 676-711), same shape as the
vehicle save with `doc_type` and the optional counterparty. -/
def handleDocComment (cfg : Config) (env : SaveEnv) (now : NowStamp)
    (ud : UserData) (disk : List String) (text : String) :
    SaveStepOut DocData :=
  if text = btnCancel then
    let c := cancelStep ud disk
    { ud := c.ud, disk := c.disk, next := c.next, replies := c.replies,
      sent := [] }
  else if text = btnAddComment then
    { ud := ud, disk := disk, next := some DOC_COMMENT,
      replies := [msgEnterComment], sent := [] }
  else
    let c := if text = btnSkip ∨ text = btnNoComment then ""
      else strTake text cfg.maxCommentLength
    if env.throws then
      { ud := emptyUserData, disk := disk, next := some MAIN_MENU,
        replies := [msgSaving, msgErrorGeneric], sent := [] }
    else
      match ud.temp_photos, ud.doc_type, ud.employee with
      | some tps, some dt, some emp =>
        let links := env.uploadList tps
        let dd : DocData :=
          { date := now.date, time := now.time, doc_type := dt,
            counterparty := ud.counterparty.getD "", photos := links,
            comment := c, employee := emp }
        if env.appendOk then
          { ud := emptyUserData, disk := disk.removeAll tps,
            next := some MAIN_MENU,
            replies := [msgSaving, msgOperationSavedOk], sent := [dd] }
        else
          { ud := emptyUserData, disk := disk.removeAll tps,
            next := some MAIN_MENU,
            replies := [msgSaving, msgErrorGoogle], sent := [dd] }
      | _, _, _ =>
        { ud := emptyUserData, disk := disk, next := some MAIN_MENU,
          replies := [msgSaving, msgErrorGeneric], sent := [] }

/-- `handle_invoice_comment` (src/bot.py lines 303-334): the staged
invoice file is uploaded and unlinked inside the `try` block, then
`invoice_data` is appended. -/
def handleInvoiceComment (cfg : Config) (env : SaveEnv) (now : NowStamp)
    (ud : UserData) (disk : List String) (text : String) :
    SaveStepOut InvoiceData :=
  if text = btnCancel then
    let c := cancelStep ud disk
    { ud := c.ud, disk := c.disk, next := c.next, replies := c.replies,
      sent := [] }
  else if text = btnAddComment then
    { ud := ud, disk := disk, next := some INVOICE_COMMENT,
      replies := [msgEnterComment], sent := [] }
  else
    let c := if text = btnSkip ∨ text = btnNoComment then ""
      else strTake text cfg.maxCommentLength
    if env.throws then
      { ud := emptyUserData, disk := disk, next := some MAIN_MENU,
        replies := [msgSaving, msgErrorGeneric], sent := [] }
    else
      match ud.file_path, ud.filename, ud.employee with
      | some fp, some fn, some emp =>
        let link := env.uploadOne fp
        let inv : InvoiceData :=
          { date := now.date, filename := fn, file_link := link,
            comment := c, employee := emp }
        if env.appendOk then
          { ud := emptyUserData, disk := disk.erase fp,
            next := some MAIN_MENU,
            replies := [msgSaving, msgOperationSavedOk], sent := [inv] }
        else
          { ud := emptyUserData, disk := disk.erase fp,
            next := some MAIN_MENU,
            replies := [msgSaving, msgErrorGoogle], sent := [inv] }
      | _, _, _ =>
        { ud := emptyUserData, disk := disk, next := some MAIN_MENU,
          replies := [msgSaving, msgErrorGeneric], sent := [] }

/-- `handle_new_product_comment` (src/bot.py lines 568-574): the
description is truncated to `MAX_COMMENT_LENGTH` and stored in the
session; there is no skip choice on this step. -/
def handleNewProductComment (cfg : Config) (ud : UserData)
    (disk : List String) (text : String) : StepOut :=
  if text = btnCancel then cancelStep ud disk
  else
    { ud := { ud with comment := some (strTake text cfg.maxCommentLength) },
      disk := disk, next := some NEW_PRODUCT_TYPE, replies := [msgPhotoCount] }

/-- `str.split('.')` on the character list: the pieces between dots. -/
def splitDot : List Char → List (List Char)
  | [] => [[]]
  | c :: cs =>
    let r := splitDot cs
    if c = '.' then [] :: r
    else
      match r with
      | [] => [[c]]
      | h :: t => (c :: h) :: t

/-- Extension extraction of `handle_document_file`:
`file_name.lower().split('.')[-1] if '.' in file_name else ''`
(lower-casing by code point, then the last dot-separated piece). -/
def extOf (fileName : String) : String :=
  if fileName.data.contains '.' then
    ⟨(splitDot (fileName.data.map Char.toLower)).getLastD []⟩
  else ""

/-- `handle_document_file` (src/bot.py lines 282-301): a document
attachment at the main menu.  Without the invoices capability, or with
an extension outside xlsx/xls/pdf, the handler returns to the main menu
without replying and without touching the session; otherwise the file is
downloaded into the staging directory, the invoice draft is created and
the machine advances to the invoice-comment state. -/
def handleDocumentFile (canInvoices : Bool) (employee fileName : String)
    (ud : UserData) (disk : List String) : StepOut :=
  if !canInvoices then
    { ud := ud, disk := disk, next := some MAIN_MENU, replies := [] }
  else if !(["xlsx", "xls", "pdf"].contains (extOf fileName)) then
    { ud := ud, disk := disk, next := some MAIN_MENU, replies := [] }
  else
    let fp := "temp_photos/" ++ fileName
    let ud' := { ud with mode := some "invoice",
                         employee := some employee,
                         filename := some fileName,
                         file_path := some fp }
    { ud := ud', disk := disk ++ [fp], next := some INVOICE_COMMENT,
      replies := [msgInvoicePrompt] }

/-- A concrete external environment for evaluations: uploads return
empty links (the non-fatal failure mode of the Blob Store), the record
store accepts appends, nothing raises. -/
def quietEnv : SaveEnv :=
  { uploadOp := fun _ _ => []
    uploadList := fun _ => []
    uploadOne := fun _ => ""
    appendOk := true
    throws := false }

/-- `quietEnv` with a failing record store: `append_movement` /
`add_*` return `False` (e.g. the target sheet has no header row). -/
def failingStoreEnv : SaveEnv :=
  { quietEnv with appendOk := false }

/-- A concrete timestamp for evaluations. -/
def nowW : NowStamp :=
  { date := "2026-10-12", time := "12:00:00", stamp := "20261012-120000" }

/-- C1 (failing evaluation): cancelling from the invoice-comment state
does return an emptied session and the main menu, but the staged invoice
file survives on disk: `_cleanup_temp_photos` only collects the
`temp_photos` lists and never the invoice draft's `file_path`, so the
"zero staged local files" part of the claim fails on the invoice
workflow. -/
theorem C1_cancel_invoice_file_leak :
    (handleInvoiceComment defaultConfig quietEnv nowW
      { mode := some "invoice", employee := some "op",
        filename := some "inv.pdf",
        file_path := some "temp_photos/inv.pdf" }
      ["temp_photos/inv.pdf"] btnCancel).ud = emptyUserData ∧
    (handleInvoiceComment defaultConfig quietEnv nowW
      { mode := some "invoice", employee := some "op",
        filename := some "inv.pdf",
        file_path := some "temp_photos/inv.pdf" }
      ["temp_photos/inv.pdf"] btnCancel).next = some MAIN_MENU ∧
    (handleInvoiceComment defaultConfig quietEnv nowW
      { mode := some "invoice", employee := some "op",
        filename := some "inv.pdf",
        file_path := some "temp_photos/inv.pdf" }
      ["temp_photos/inv.pdf"] btnCancel).disk =
      ["temp_photos/inv.pdf"] := by
  refine ⟨rfl, rfl, ?_⟩
  decide

/-- C10: document attachments at the main menu.  Without the invoices
capability, or with an extension other than xlsx/xls/pdf, the input is
silently ignored (same state, no reply, session untouched); an
authorized sender of an allowed extension gets the file staged locally
and the machine advances to the invoice-comment state. -/
theorem C10_document_file_gate (canInv : Bool) (emp fn : String)
    (ud : UserData) (disk : List String) :
    ((canInv = false ∨
        (["xlsx", "xls", "pdf"].contains (extOf fn)) = false) →
      handleDocumentFile canInv emp fn ud disk =
        { ud := ud, disk := disk, next := some MAIN_MENU,
          replies := [] }) ∧
    (canInv = true →
      (["xlsx", "xls", "pdf"].contains (extOf fn)) = true →
      (handleDocumentFile canInv emp fn ud disk).next =
          some INVOICE_COMMENT ∧
      (handleDocumentFile canInv emp fn ud disk).disk =
          disk ++ ["temp_photos/" ++ fn] ∧
      (handleDocumentFile canInv emp fn ud disk).ud.file_path =
          some ("temp_photos/" ++ fn) ∧
      (handleDocumentFile canInv emp fn ud disk).replies =
          [msgInvoicePrompt]) := by
  constructor
  · rintro (h | h)
    · subst h
      rfl
    · unfold handleDocumentFile
      rw [h]
      cases canInv <;> rfl
  · intro h1 h2
    subst h1
    unfold handleDocumentFile
    rw [h2]
    exact ⟨rfl, rfl, rfl, rfl⟩

/-- Witness for C10: an unauthorized "invoice.pdf" is silently ignored;
an authorized "report.docx" is also ignored (bad extension); an
authorized "invoice.pdf" is staged and advances. -/
theorem C10_document_file_gate_witness :
    handleDocumentFile false "op" "invoice.pdf" emptyUserData [] =
      { ud := emptyUserData, disk := [], next := some MAIN_MENU,
        replies := [] } ∧
    handleDocumentFile true "op" "report.docx" emptyUserData [] =
      { ud := emptyUserData, disk := [], next := some MAIN_MENU,
        replies := [] } ∧
    (handleDocumentFile true "op" "invoice.pdf" emptyUserData []).next =
      some INVOICE_COMMENT ∧
    (handleDocumentFile true "op" "invoice.pdf" emptyUserData []).disk =
      ["temp_photos/invoice.pdf"] := by
  refine ⟨?_, ?_, ?_, ?_⟩
  · exact (C10_document_file_gate false "op" "invoice.pdf" emptyUserData
      []).1 (Or.inl rfl)
  · exact (C10_document_file_gate true "op" "report.docx" emptyUserData
      []).1 (Or.inr (by decide))
  · exact ((C10_document_file_gate true "op" "invoice.pdf" emptyUserData
      []).2 rfl (by decide)).1
  · have h := ((C10_document_file_gate true "op" "invoice.pdf"
      emptyUserData []).2 rfl (by decide)).2.1
    rw [h]
    rfl

/-- The first-of-operation flag pattern for `n` appended rows. -/
def firstFlags : Nat → List Bool
  | 0 => []
  | n + 1 => true :: List.replicate n false

theorem saveLoop_length (env : SaveEnv) (now : NowStamp)
    (opId opT ctp genC emp : String) :
    ∀ (i : Nat) (ps : List Position),
      (saveLoop env now opId opT ctp genC emp i ps).1.length =
        ps.length := by
  intro i ps
  induction ps generalizing i with
  | nil => rfl
  | cons p rest ih =>
    simp only [saveLoop, List.length_cons]
    rw [ih]

theorem saveLoop_posNumbers (env : SaveEnv) (now : NowStamp)
    (opId opT ctp genC emp : String) :
    ∀ (i : Nat) (ps : List Position),
      (saveLoop env now opId opT ctp genC emp i ps).1.map
          (fun c => c.1.posNumber) =
        ps.map (fun p => p.number) := by
  intro i ps
  induction ps generalizing i with
  | nil => rfl
  | cons p rest ih =>
    simp only [saveLoop, List.map_cons]
    rw [ih]
    rfl

theorem saveLoop_operationId (env : SaveEnv) (now : NowStamp)
    (opId opT ctp genC emp : String) :
    ∀ (i : Nat) (ps : List Position) (c : MovementRow × Bool),
      c ∈ (saveLoop env now opId opT ctp genC emp i ps).1 →
      c.1.operationId = opId := by
  intro i ps
  induction ps generalizing i with
  | nil =>
    intro c hc
    exact absurd hc (List.not_mem_nil c)
  | cons p rest ih =>
    intro c hc
    rcases List.mem_cons.mp hc with h | h
    · rw [h]
      rfl
    · exact ih (i + 1) c h

theorem saveLoop_flags_tail (env : SaveEnv) (now : NowStamp)
    (opId opT ctp genC emp : String) :
    ∀ (i : Nat) (ps : List Position),
      (saveLoop env now opId opT ctp genC emp (i + 1) ps).1.map
          (fun c => c.2) =
        List.replicate ps.length false := by
  intro i ps
  induction ps generalizing i with
  | nil => rfl
  | cons p rest ih =>
    simp only [saveLoop, List.map_cons, List.length_cons,
      List.replicate_succ]
    rw [ih]
    rfl

theorem saveLoop_flags (env : SaveEnv) (now : NowStamp)
    (opId opT ctp genC emp : String) (ps : List Position) :
    (saveLoop env now opId opT ctp genC emp 0 ps).1.map
        (fun c => c.2) = firstFlags ps.length := by
  cases ps with
  | nil => rfl
  | cons p rest =>
    simp only [saveLoop, List.map_cons, List.length_cons, firstFlags]
    rw [saveLoop_flags_tail]
    rfl

/-- C5: a completed multi-position movement save appends exactly one row
per position, in position order, all sharing the single operation id
`OP-<timestamp>-<employee>`, the first call flagged as
first-of-operation and the rest not; with a working store all of them
are persisted, and the session ends cleared at the main menu. -/
theorem C5_save_rows_per_position (env : SaveEnv) (now : NowStamp)
    (ud : UserData) (disk : List String) (emp opT em : String)
    (ps : List Position)
    (hth : env.throws = false) (hok : env.appendOk = true)
    (hemp : ud.employee = some emp) (hps : ud.positions = some ps)
    (hop : ud.opType = some opT) (hem : ud.opEmoji = some em) :
    (saveOperation env now ud disk).persisted =
        (saveOperation env now ud disk).calls ∧
    (saveOperation env now ud disk).persisted.length = ps.length ∧
    (saveOperation env now ud disk).persisted.map
        (fun c => c.1.posNumber) = ps.map (fun p => p.number) ∧
    (∀ c ∈ (saveOperation env now ud disk).persisted,
      c.1.operationId = "OP-" ++ now.stamp ++ "-" ++ emp) ∧
    (saveOperation env now ud disk).persisted.map (fun c => c.2) =
        firstFlags ps.length ∧
    (saveOperation env now ud disk).ud = emptyUserData ∧
    (saveOperation env now ud disk).next = some MAIN_MENU := by
  have hred : saveOperation env now ud disk =
      { ud := emptyUserData
        disk := disk.removeAll (saveLoop env now
          ("OP-" ++ now.stamp ++ "-" ++ emp) opT (ud.counterparty.getD "")
          (ud.general_comment.getD "") emp 0 ps).2
        next := some MAIN_MENU
        replies := [msgSaving, msgOperationSavedOk]
        calls := (saveLoop env now ("OP-" ++ now.stamp ++ "-" ++ emp) opT
          (ud.counterparty.getD "") (ud.general_comment.getD "") emp
          0 ps).1
        persisted := (saveLoop env now ("OP-" ++ now.stamp ++ "-" ++ emp)
          opT (ud.counterparty.getD "") (ud.general_comment.getD "") emp
          0 ps).1 } := by
    unfold saveOperation
    rw [hth, hemp, hps, hop, hem]
    simp only [if_false, Bool.false_eq_true, hok, if_true]
  rw [hred]
  refine ⟨rfl, ?_, ?_, ?_, ?_, rfl, rfl⟩
  · exact saveLoop_length env now _ opT _ _ emp 0 ps
  · exact saveLoop_posNumbers env now _ opT _ _ emp 0 ps
  · exact fun c hc => saveLoop_operationId env now _ opT _ _ emp 0 ps c hc
  · exact saveLoop_flags env now _ opT _ _ emp ps

/-- Witness for C5: a receipt with two positions (quantities 3 and 7)
under counterparty "Acme" yields exactly two persisted rows, the first
flagged, sharing the operation id. -/
theorem C5_save_rows_per_position_witness :
    (saveOperation quietEnv nowW
      { mode := some "receipt", employee := some "op",
        opType := some "R", opEmoji := some "E",
        counterparty := some "Acme",
        positions := some [⟨1, [], [], some 3⟩, ⟨2, [], [], some 7⟩] }
      []).persisted.length = 2 ∧
    (saveOperation quietEnv nowW
      { mode := some "receipt", employee := some "op",
        opType := some "R", opEmoji := some "E",
        counterparty := some "Acme",
        positions := some [⟨1, [], [], some 3⟩, ⟨2, [], [], some 7⟩] }
      []).persisted.map (fun c => c.2) = [true, false] ∧
    (∀ c ∈ (saveOperation quietEnv nowW
      { mode := some "receipt", employee := some "op",
        opType := some "R", opEmoji := some "E",
        counterparty := some "Acme",
        positions := some [⟨1, [], [], some 3⟩, ⟨2, [], [], some 7⟩] }
      []).persisted, c.1.operationId = "OP-" ++ nowW.stamp ++ "-" ++ "op") := by
  have h := C5_save_rows_per_position quietEnv nowW
    { mode := some "receipt", employee := some "op",
      opType := some "R", opEmoji := some "E",
      counterparty := some "Acme",
      positions := some [⟨1, [], [], some 3⟩, ⟨2, [], [], some 7⟩] }
    [] "op" "R" "E" [⟨1, [], [], some 3⟩, ⟨2, [], [], some 7⟩]
    rfl rfl rfl rfl rfl rfl
  refine ⟨h.2.1, ?_, h.2.2.2.1⟩
  rw [h.2.2.2.2.1]
  rfl

/-- C7 (failing evaluation): when `append_movement` returns failure
(e.g. the movements sheet has no header row), `save_operation` ignores
the boolean result: the store records nothing, yet the user is sent the
success reply rather than a failure message.  The session-clearing half
of the claim does hold (the session is emptied and the next state is the
main menu), but the "generic failure message" half fails on the
multi-position movement workflow. -/
theorem C7_movement_save_failure_reply :
    (saveOperation failingStoreEnv nowW
      { mode := some "receipt", employee := some "op",
        opType := some "R", opEmoji := some "E",
        counterparty := some "Acme",
        positions := some [⟨1, [], [], some 3⟩] } []).persisted = [] ∧
    (saveOperation failingStoreEnv nowW
      { mode := some "receipt", employee := some "op",
        opType := some "R", opEmoji := some "E",
        counterparty := some "Acme",
        positions := some [⟨1, [], [], some 3⟩] } []).replies =
      [msgSaving, msgOperationSavedOk] ∧
    (saveOperation failingStoreEnv nowW
      { mode := some "receipt", employee := some "op",
        opType := some "R", opEmoji := some "E",
        counterparty := some "Acme",
        positions := some [⟨1, [], [], some 3⟩] } []).ud =
      emptyUserData ∧
    (saveOperation failingStoreEnv nowW
      { mode := some "receipt", employee := some "op",
        opType := some "R", opEmoji := some "E",
        counterparty := some "Acme",
        positions := some [⟨1, [], [], some 3⟩] } []).next =
      some MAIN_MENU := by
  exact ⟨rfl, rfl, rfl, rfl⟩

theorem saveLoop_generalComment (env : SaveEnv) (now : NowStamp)
    (opId opT ctp genC emp : String) :
    ∀ (i : Nat) (ps : List Position) (c : MovementRow × Bool),
      c ∈ (saveLoop env now opId opT ctp genC emp i ps).1 →
      c.1.generalComment = genC := by
  intro i ps
  induction ps generalizing i with
  | nil =>
    intro c hc
    exact absurd hc (List.not_mem_nil c)
  | cons p rest ih =>
    intro c hc
    rcases List.mem_cons.mp hc with h | h
    · rw [h]
      rfl
    · exact ih (i + 1) c h

theorem handleGeneralComment_calls (cfg : Config) (env : SaveEnv)
    (now : NowStamp) (ud : UserData) (disk : List String) (text : String)
    (emp opT em : String) (ps : List Position)
    (h1 : text ≠ btnCancel) (h2 : text ≠ btnAddComment)
    (hth : env.throws = false) (hemp : ud.employee = some emp)
    (hps : ud.positions = some ps) (hop : ud.opType = some opT)
    (hem : ud.opEmoji = some em) :
    (handleGeneralComment cfg env now ud disk text).calls =
      (saveLoop env now ("OP-" ++ now.stamp ++ "-" ++ emp) opT
        (ud.counterparty.getD "")
        (if text = btnSave then "" else strTake text cfg.maxCommentLength)
        emp 0 ps).1 := by
  simp only [handleGeneralComment, if_neg h1, if_neg h2, saveOperation,
    hth, Bool.false_eq_true, if_false, hemp, hps, hop, hem,
    Option.getD_some]

/-- C8: comment normalization.  In every workflow, an accepted free-text
comment is stored truncated to `MAX_COMMENT_LENGTH` (a string at least
that long is stored with exactly that length, witnessed by the generic
length fact about `strTake`), and the offered skip / no-comment / save
choice stores the empty string; these are the only two stored values. -/
theorem C8_comment_normalization :
    (∀ (s : String) (n : Nat), (strTake s n).length = min n s.length) ∧
    (∀ (cfg : Config) (env : SaveEnv) (now : NowStamp) (ud : UserData)
        (disk : List String) (text emp opT em : String)
        (ps : List Position),
      text ≠ btnCancel → text ≠ btnAddComment →
      env.throws = false → ud.employee = some emp →
      ud.positions = some ps → ud.opType = some opT →
      ud.opEmoji = some em →
      (text = btnSave →
        ∀ c ∈ (handleGeneralComment cfg env now ud disk text).calls,
          c.1.generalComment = "") ∧
      (text ≠ btnSave →
        ∀ c ∈ (handleGeneralComment cfg env now ud disk text).calls,
          c.1.generalComment = strTake text cfg.maxCommentLength)) ∧
    (∀ (cfg : Config) (env : SaveEnv) (now : NowStamp) (ud : UserData)
        (disk : List String) (text vid vop emp : String)
        (tps : List String),
      text ≠ btnCancel → text ≠ btnAddComment →
      env.throws = false → ud.temp_photos = some tps →
      ud.vehicle_id = some vid → ud.vehicle_op_type = some vop →
      ud.employee = some emp →
      ((text = btnSkip ∨ text = btnNoComment) →
        (handleVehicleComment cfg env now ud disk text).sent.map
          (fun d => d.comment) = [""]) ∧
      (text ≠ btnSkip → text ≠ btnNoComment →
        (handleVehicleComment cfg env now ud disk text).sent.map
          (fun d => d.comment) = [strTake text cfg.maxCommentLength])) ∧
    (∀ (cfg : Config) (env : SaveEnv) (now : NowStamp) (ud : UserData)
        (disk : List String) (text dt emp : String) (tps : List String),
      text ≠ btnCancel → text ≠ btnAddComment →
      env.throws = false → ud.temp_photos = some tps →
      ud.doc_type = some dt → ud.employee = some emp →
      ((text = btnSkip ∨ text = btnNoComment) →
        (handleDocComment cfg env now ud disk text).sent.map
          (fun d => d.comment) = [""]) ∧
      (text ≠ btnSkip → text ≠ btnNoComment →
        (handleDocComment cfg env now ud disk text).sent.map
          (fun d => d.comment) = [strTake text cfg.maxCommentLength])) ∧
    (∀ (cfg : Config) (env : SaveEnv) (now : NowStamp) (ud : UserData)
        (disk : List String) (text fp fn emp : String),
      text ≠ btnCancel → text ≠ btnAddComment →
      env.throws = false → ud.file_path = some fp →
      ud.filename = some fn → ud.employee = some emp →
      ((text = btnSkip ∨ text = btnNoComment) →
        (handleInvoiceComment cfg env now ud disk text).sent.map
          (fun d => d.comment) = [""]) ∧
      (text ≠ btnSkip → text ≠ btnNoComment →
        (handleInvoiceComment cfg env now ud disk text).sent.map
          (fun d => d.comment) = [strTake text cfg.maxCommentLength])) ∧
    (∀ (cfg : Config) (ud : UserData) (disk : List String)
        (text : String),
      text ≠ btnCancel →
      (handleNewProductComment cfg ud disk text).ud.comment =
        some (strTake text cfg.maxCommentLength)) := by
  refine ⟨?_, ?_, ?_, ?_, ?_, ?_⟩
  · intro s n
    simp only [strTake, String.length]
    exact List.length_take n s.data
  · intro cfg env now ud disk text emp opT em ps h1 h2 hth hemp hps hop hem
    have hcalls := handleGeneralComment_calls cfg env now ud disk text emp
      opT em ps h1 h2 hth hemp hps hop hem
    constructor
    · intro hsave c hc
      rw [hcalls, if_pos hsave] at hc
      exact saveLoop_generalComment env now _ opT _ "" emp 0 ps c hc
    · intro hsave c hc
      rw [hcalls, if_neg hsave] at hc
      exact saveLoop_generalComment env now _ opT _ _ emp 0 ps c hc
  · intro cfg env now ud disk text vid vop emp tps h1 h2 hth htps hvid
      hvop hemp
    constructor
    · intro hskip
      simp only [handleVehicleComment, if_neg h1, if_neg h2, if_pos hskip,
        hth, Bool.false_eq_true, if_false, htps, hvid, hvop, hemp]
      cases happ : env.appendOk <;> simp
    · intro hs1 hs2
      have hskip : ¬(text = btnSkip ∨ text = btnNoComment) := by
        rintro (h | h)
        · exact hs1 h
        · exact hs2 h
      simp only [handleVehicleComment, if_neg h1, if_neg h2,
        if_neg hskip, hth, Bool.false_eq_true, if_false, htps, hvid,
        hvop, hemp]
      cases happ : env.appendOk <;> simp
  · intro cfg env now ud disk text dt emp tps h1 h2 hth htps hdt hemp
    constructor
    · intro hskip
      simp only [handleDocComment, if_neg h1, if_neg h2, if_pos hskip,
        hth, Bool.false_eq_true, if_false, htps, hdt, hemp]
      cases happ : env.appendOk <;> simp
    · intro hs1 hs2
      have hskip : ¬(text = btnSkip ∨ text = btnNoComment) := by
        rintro (h | h)
        · exact hs1 h
        · exact hs2 h
      simp only [handleDocComment, if_neg h1, if_neg h2, if_neg hskip,
        hth, Bool.false_eq_true, if_false, htps, hdt, hemp]
      cases happ : env.appendOk <;> simp
  · intro cfg env now ud disk text fp fn emp h1 h2 hth hfp hfn hemp
    constructor
    · intro hskip
      simp only [handleInvoiceComment, if_neg h1, if_neg h2,
        if_pos hskip, hth, Bool.false_eq_true, if_false, hfp, hfn, hemp]
      cases happ : env.appendOk <;> simp
    · intro hs1 hs2
      have hskip : ¬(text = btnSkip ∨ text = btnNoComment) := by
        rintro (h | h)
        · exact hs1 h
        · exact hs2 h
      simp only [handleInvoiceComment, if_neg h1, if_neg h2,
        if_neg hskip, hth, Bool.false_eq_true, if_false, hfp, hfn, hemp]
      cases happ : env.appendOk <;> simp
  · intro cfg ud disk text h1
    simp only [handleNewProductComment, if_neg h1]

/-- Witness for C8: a 1001-character comment in the vehicle workflow is
stored truncated to exactly 1000 characters, and the no-comment choice
stores the empty string. -/
theorem C8_comment_normalization_witness :
    ((handleVehicleComment defaultConfig quietEnv nowW
      { temp_photos := some [], vehicle_id := some "V1",
        vehicle_op_type := some "IN", employee := some "op" }
      [] btnNoComment).sent.map (fun d => d.comment) = [""]) ∧
    (strTake (String.mk (List.replicate 1001 'a'))
      defaultConfig.maxCommentLength).length = 1000 := by
  constructor
  · exact ((C8_comment_normalization.2.2.1 defaultConfig quietEnv nowW
      { temp_photos := some [], vehicle_id := some "V1",
        vehicle_op_type := some "IN", employee := some "op" }
      [] btnNoComment "V1" "IN" "op" [] (by decide) (by decide) rfl rfl
      rfl rfl rfl).1 (Or.inr rfl))
  · rw [C8_comment_normalization.1]
    show min defaultConfig.maxCommentLength
      (List.replicate 1001 'a').length = 1000
    rw [List.length_replicate]
    decide

/-- Boolean prefix test on character lists. -/
def listStartsWith : List Char → List Char → Bool
  | [], _ => true
  | _ :: _, [] => false
  | a :: as, b :: bs => a = b && listStartsWith as bs

theorem listStartsWith_append (l m : List Char) :
    listStartsWith l (l ++ m) = true := by
  induction l with
  | nil => rfl
  | cons a as ih =>
    simp only [List.cons_append, listStartsWith, decide_eq_true_eq,
      Bool.and_eq_true, decide_eq_true_eq]
    exact ⟨trivial, ih⟩

theorem strDataAppend (s t : String) :
    (s ++ t).data = s.data ++ t.data := by
  cases s
  cases t
  rfl

/-- Does a column name belong to the dynamically numbered photo columns
`Фото 1`, `Фото 2`, ...? -/
def isFotoKey (k : String) : Bool :=
  listStartsWith "Фото ".data k.data

/-- The `for i, link in enumerate(photos[:cap], 1): row_data[f"Фото {i}"]
= link` loop: numbered photo-column entries starting at index `i`. -/
def fotoPairsFrom : Nat → List String → List (String × String)
  | _, [] => []
  | i, l :: ls => ("Фото " ++ toString i, l) :: fotoPairsFrom (i + 1) ls

/-- The photo-link values of a row, in column order. -/
def fotoEntries (l : List (String × String)) : List String :=
  (l.filter (fun p => isFotoKey p.1)).map (fun p => p.2)

theorem fotoEntries_fotoPairsFrom :
    ∀ (i : Nat) (ls : List String),
      fotoEntries (fotoPairsFrom i ls) = ls := by
  intro i ls
  induction ls generalizing i with
  | nil => rfl
  | cons l rest ih =>
    have hkey : isFotoKey ("Фото " ++ toString i) = true := by
      unfold isFotoKey
      rw [strDataAppend]
      exact listStartsWith_append _ _
    simp only [fotoPairsFrom, fotoEntries, List.filter_cons, hkey,
      if_true, List.map_cons]
    have h2 : List.map (fun p : String × String => p.2)
        (List.filter (fun p => isFotoKey p.1)
          (fotoPairsFrom (i + 1) rest)) = rest := ih (i + 1)
    rw [h2]

/-- `row_data` of `SheetsHandler.add_vehicle` (sheets_handler.py lines
267-278): fixed columns then at most ten photo columns
(`photos[:10]`). -/
def vehicleRowData (d : VehicleData) : List (String × String) :=
  [("Дата", d.date), ("Время", d.time), ("Тип", d.op_type),
   ("Машина/ID", d.vehicle_id), ("Комментарий", d.comment),
   ("Сотрудник", d.employee)] ++ fotoPairsFrom 1 (d.photos.take 10)

/-- `row_data` of `SheetsHandler.add_document` (lines 304-315): at most
five photo columns (`photos[:5]`). -/
def docRowData (d : DocData) : List (String × String) :=
  [("Дата", d.date), ("Время", d.time), ("Тип документа", d.doc_type),
   ("Контрагент", d.counterparty), ("Комментарий", d.comment),
   ("Сотрудник", d.employee)] ++ fotoPairsFrom 1 (d.photos.take 5)

/-- `row_data` of `SheetsHandler.add_new_product` (lines 353-362): at
most five photo columns (`photos[:5]`). -/
def newProductRowData (d : ProductData) : List (String × String) :=
  [("Время", d.time), ("Сотрудник", d.employee),
   ("Комментарий", d.comment), ("Тип товара", d.product_type)] ++
    fotoPairsFrom 1 (d.photos.take 5)

/-- The five photo columns of a movement row, in order. -/
def movementRowFotos (r : MovementRow) : List String :=
  [r.foto1, r.foto2, r.foto3, r.foto4, r.foto5]

/-- C9: photo-link caps in persisted rows.  A movement row carries
exactly five photo columns holding the first five links (padded with
empty strings); a vehicle row carries the first ten uploaded links, a
document row and a new-product row the first five — any further links
are dropped. -/
theorem C9_row_photo_caps :
    (∀ (now : NowStamp) (opT ctp opId genC emp : String) (pos : Position)
        (links : List String),
      movementRowFotos (mkMovementRow now opT ctp opId pos links genC
        emp) = links.take 5 ++ List.replicate (5 - links.length) "") ∧
    (∀ d : VehicleData,
      fotoEntries (vehicleRowData d) = d.photos.take 10) ∧
    (∀ d : DocData, fotoEntries (docRowData d) = d.photos.take 5) ∧
    (∀ d : ProductData,
      fotoEntries (newProductRowData d) = d.photos.take 5) := by
  refine ⟨?_, ?_, ?_, ?_⟩
  · intro now opT ctp opId genC emp pos links
    rcases links with _ | ⟨a, _ | ⟨b, _ | ⟨c, _ | ⟨d, _ | ⟨e, rest⟩⟩⟩⟩⟩
    · rfl
    · rfl
    · rfl
    · rfl
    · rfl
    · have hz : 5 - (rest.length + 5) = 0 := by omega
      simp only [movementRowFotos, mkMovementRow, List.getD,
        List.length_cons, hz, List.replicate_zero, List.append_nil]
      rfl
  · intro d
    have h := fotoEntries_fotoPairsFrom 1 (d.photos.take 10)
    exact h
  · intro d
    have h := fotoEntries_fotoPairsFrom 1 (d.photos.take 5)
    exact h
  · intro d
    have h := fotoEntries_fotoPairsFrom 1 (d.photos.take 5)
    exact h

/-- One row of the movements sheet as `get_history` reads it (columns
`Тип`, `Дата`, `Время`, `Контрагент/Место`, `Количество`). -/
structure MovRow where
  opType : String
  date : String
  time : String
  place : String
  qty : String
deriving DecidableEq, Repr

/-- One row of the documents sheet (`Тип документа`, `Дата`, `Время`,
`Контрагент`). -/
structure DocRow where
  docType : String
  date : String
  time : String
  counterparty : String
deriving DecidableEq, Repr

/-- One row of the vehicles sheet (`Тип`, `Дата`, `Время`,
`Машина/ID`). -/
structure VehRow where
  opType : String
  date : String
  time : String
  vehicleId : String
deriving DecidableEq, Repr

/-- One summary record returned by `get_history`. -/
structure HistRecord where
  rtype : String
  emoji : String
  date : String
  time : String
  details : String
deriving DecidableEq, Repr

/-- Python `needle in haystack` on strings: substring occurrence. -/
def hasSub (needle : List Char) : List Char → Bool
  | [] => listStartsWith needle []
  | c :: cs => listStartsWith needle (c :: cs) || hasSub needle cs

/-- Substring test lifted to `String`. -/
def containsSub (needle hay : String) : Bool :=
  hasSub needle.data hay.data

/-- Python string `<` comparison: lexicographic by code point. -/
def lexLt : List Char → List Char → Bool
  | [], [] => false
  | [], _ :: _ => true
  | _ :: _, [] => false
  | a :: as, b :: bs =>
    if a.val < b.val then true
    else if a = b then lexLt as bs
    else false

/-- The sort key of `get_history`: `f"{date} {time}"`. -/
def histSortKey (r : HistRecord) : String :=
  r.date ++ " " ++ r.time

/-- Stable insertion used to model `list.sort(key=..., reverse=True)`:
a record goes after every earlier record whose key is not smaller. -/
def insertRecDesc (r : HistRecord) : List HistRecord → List HistRecord
  | [] => [r]
  | x :: xs =>
    if lexLt (histSortKey x).data (histSortKey r).data then r :: x :: xs
    else x :: insertRecDesc r xs

/-- Stable descending sort by date-then-time key. -/
def sortRecsDesc (l : List HistRecord) : List HistRecord :=
  l.foldl (fun acc r => insertRecDesc r acc) []

/-- `SheetsHandler.get_history` (sheets_handler.py lines 367-434).  The
three sheets are read, filtered by `filter_key`, merged, sorted
descending by `f"{date} {time}"` and capped at `limit`.  Note the
`start_date` computed from `period_key` at the top of the Python
function is never applied to any record, so the period argument has no
effect on the result. -/
def getHistory (movs : List MovRow) (docs : List DocRow)
    (vehs : List VehRow) (filterKey periodKey : String) (limit : Nat) :
    List HistRecord :=
  let _ := periodKey
  let movRecs :=
    if filterKey = "all" ∨ filterKey = "receipt" ∨ filterKey = "issue"
    then
      (movs.filter (fun r =>
        !(decide (filterKey = "receipt") &&
            !containsSub "Приёмка" r.opType) &&
        !(decide (filterKey = "issue") &&
            !containsSub "Выдача" r.opType))).map
        (fun r =>
          { rtype := r.opType
            emoji := if containsSub "Приёмка" r.opType then "📥"
              else "📤"
            date := r.date
            time := r.time
            details := r.place ++ " | " ++ r.qty })
    else []
  let docRecs :=
    if filterKey = "all" ∨ filterKey = "documents" then
      docs.map (fun r =>
        { rtype := r.docType, emoji := "📄", date := r.date,
          time := r.time, details := r.counterparty })
    else []
  let vehRecs :=
    if filterKey = "all" ∨ filterKey = "vehicles" then
      vehs.map (fun r =>
        { rtype := r.opType
          emoji := if containsSub "Въезд" r.opType then "🟢" else "🔴"
          date := r.date
          time := r.time
          details := r.vehicleId })
    else []
  (sortRecsDesc (movRecs ++ docRecs ++ vehRecs)).take limit

/-- C2 (failing evaluation): a history query for filter "issue" and
period "today" is indeed restricted to issue records, sorted descending
by date-then-time and capped at the limit, but it is NOT restricted to
today's period: records dated 2020-01-01 and 2021-05-05 are both
returned for period "today" (no single day contains both), because
`get_history` computes `start_date` and never uses it. -/
theorem C2_history_ignores_period :
    getHistory
      [⟨"Выдача", "2020-01-01", "10:00:00", "X", "1"⟩,
       ⟨"Приёмка", "2026-10-12", "09:00:00", "Z", "5"⟩,
       ⟨"Выдача", "2021-05-05", "11:00:00", "Y", "2"⟩]
      [] [] "issue" "today" 10 =
      [⟨"Выдача", "📤", "2021-05-05", "11:00:00", "Y | 2"⟩,
       ⟨"Выдача", "📤", "2020-01-01", "10:00:00", "X | 1"⟩] := by
  decide
